import Mathlib

/-!
Verification of the draft-registration paging/autosave workflow and the
file-list validator of the ember-osf-web front end.

Sources embedded:
- src/app/validators/validate-response-format.ts (`validateFileList`)
- src/unnamed/part_002 (`SchemaBlockGroup` interface)
- src/unnamed/part_003 (`DraftRegistrationManagerComponent`: the
  `initializePageManagers`, `onInput` and `submitDraftRegistration` tasks and
  the `nextPageParam`, `prevPageParam`, `currentPageManager`, `isValid`
  getters)
- src/unnamed/part_001 (the Node model, whose id / isRoot / registrations
  fields the validator consumes)

Parts of the repository that live outside the provided sources
(`getPages`, the `PageManager` class, `getPageParam`, the File model) are
modelled from the spec and kept abstract; each such definition says so in
its doc comment.
-/

namespace OsfDraft

/-- A registration-response value. The code treats response values opaquely
(they are read from a change-set and written into a mapping, never
inspected), so they are modelled as strings. -/
abbrev RegValue := String

/-- The `registrationResponses` mapping (`PageResponse` in
packages/registration-schema): a JavaScript object mapping
registrationResponseKey strings to response values, modelled as an
association list with at most one entry per key. -/
abbrev PageResponse := List (String × RegValue)

/-- JavaScript object property write (the effect of
`Object.assign(target, props)` for a single property): overwrite the
existing entry for the key in place, or append a new entry. -/
def setKey : PageResponse → String → RegValue → PageResponse
  | [], k, v => [(k, v)]
  | (k', v') :: rest, k, v =>
      if k' = k then (k, v) :: rest else (k', v') :: setKey rest k v

/-- JavaScript object property read: the value stored under the key, if any. -/
def getKey : PageResponse → String → Option RegValue
  | [], _ => none
  | (k', v') :: rest, k => if k' = k then some v' else getKey rest k

/-- Modelled from the spec: a SchemaBlock (the schema-block model is not
among the provided sources) is an atomic form element tagged with a block
type and a group key (spec section 3). Nothing in the embedded code
inspects these fields. -/
structure SchemaBlock where
  blockType : Option String
  schemaBlockGroupKey : Option String
  displayText : Option String

/-- The SchemaBlockGroup interface of src/unnamed/part_002: all fields
optional, exactly as declared there. -/
structure SchemaBlockGroup where
  inputType : Option String
  labelBlock : Option SchemaBlock
  inputBlock : Option SchemaBlock
  optionBlocks : Option (List SchemaBlock)
  schemaBlockGroupKey : Option String
  registrationResponseKey : Option String

/-- Modelled from the spec: the PageManager class
(packages/registration-schema) is not among the provided sources. The
fields are exactly those the component in src/unnamed/part_003 reads:
`schemaBlockGroups` (optional, guarded before use), `changeSet` (read
through `.get(key)`), `pageHeadingText` and `pageIsValid` (spec section
4.2). -/
structure PageManager where
  schemaBlockGroups : Option (List SchemaBlockGroup)
  changeSet : String → RegValue
  pageHeadingText : String
  pageIsValid : Bool

/-- The external draft-registration resource (spec section 6): it owns the
authoritative `registrationResponses` mapping; `save()` persists it. -/
structure DraftRegistration where
  registrationResponses : PageResponse

/-- The mutable state of DraftRegistrationManagerComponent
(src/unnamed/part_003 lines 86-96): the draft, the externally driven
1-indexed `currentPage`, `lastPage`, the shared `registrationResponses`
mapping and the list of page managers. -/
structure ManagerState where
  draftRegistration : DraftRegistration
  currentPage : Int
  lastPage : Int
  registrationResponses : PageResponse
  pageManagers : List PageManager

/-- The initial value of the component's `pageManagers` field
(src/unnamed/part_003 line 96): the empty list, replaced only at the end of
initialization. -/
def initialPageManagers : List PageManager := []

/-- JavaScript array indexing with a possibly out-of-range integer index:
`xs[i]` is undefined (`none`) when `i` is negative or at least the
length. -/
def jsIndex (xs : List α) (i : Int) : Option α :=
  if 0 ≤ i then xs.get? i.toNat else none

/-- The `currentPageManager` getter (src/unnamed/part_003 lines 119-125):
`if (this.pageManagers.length >= this.currentPage) return
this.pageManagers[this.currentPage - 1]; return undefined`. -/
def currentPageManager (pms : List PageManager) (cp : Int) : Option PageManager :=
  if cp ≤ (pms.length : Int) then jsIndex pms (cp - 1) else none

/-- The `isValid` getter (src/unnamed/part_003 lines 127-130):
`this.pageManagers.every(pageManager => Boolean(pageManager.pageIsValid))`. -/
def isValid (pms : List PageManager) : Bool :=
  pms.all (fun pm => pm.pageIsValid)

/-- `isValid` read off the component state; the getter depends only on the
`pageManagers` field. -/
def ManagerState.isValid (s : ManagerState) : Bool :=
  OsfDraft.isValid s.pageManagers

/-- `currentPageManager` read off the component state. -/
def ManagerState.currentPageManager (s : ManagerState) : Option PageManager :=
  OsfDraft.currentPageManager s.pageManagers s.currentPage

/-- The `nextPageParam` getter (src/unnamed/part_003 lines 100-107),
parametrized by the external pure page-param formatter `getPageParam`
(utils/page-param is not among the provided sources; per spec section 6 it
is a pure function of page number and heading text). `none` models the
TypeError raised by destructuring `pageHeadingText` from an undefined
array element. -/
def nextPageParam (fmt : Int → String → String) (pms : List PageManager)
    (lastPage cp : Int) : Option String :=
  if pms.length ≠ 0 ∧ lastPage ≠ cp then
    (jsIndex pms cp).map (fun pm => fmt (cp + 1) pm.pageHeadingText)
  else some ""

/-- The `prevPageParam` getter (src/unnamed/part_003 lines 109-117):
guard `pageManagers.length && currentPage > 1`, page index
`currentPage - 2`, label for page `currentPage - 1`. -/
def prevPageParam (fmt : Int → String → String) (pms : List PageManager)
    (cp : Int) : Option String :=
  if pms.length ≠ 0 ∧ 1 < cp then
    (jsIndex pms (cp - 2)).map (fun pm => fmt (cp - 1) pm.pageHeadingText)
  else some ""

/-- The body of the merge loop of the `onInput` task (src/unnamed/part_003
lines 66-71). For each SchemaBlockGroup of the current page the code runs
`Object.assign(this.registrationResponses, obj)` where `obj` is the object
literal whose single property is LITERALLY NAMED `registrationResponseKey`
(the TypeScript source does not use a computed property name), with value
`changeset.get(registrationResponseKey!)`; the non-null assertion on the
optional key is modelled by defaulting to the empty string. -/
def onInputMerge (groups : List SchemaBlockGroup) (changeset : String → RegValue)
    (responses : PageResponse) : PageResponse :=
  groups.foldl
    (fun acc g =>
      setKey acc "registrationResponseKey" (changeset (g.registrationResponseKey.getD "")))
    responses

/-- The `onInput` task body after the 500ms timeout elapses
(src/unnamed/part_003 lines 64-77): if a current page manager with
schemaBlockGroups exists, run the merge loop over its groups, store the
merged mapping on the component and on the draft
(`setProperties({ registrationResponses })`), and save the draft. The
boolean records whether a save was performed. -/
def onInputFire (s : ManagerState) : ManagerState × Bool :=
  match s.currentPageManager with
  | some pm =>
      match pm.schemaBlockGroups with
      | some groups =>
          let responses := onInputMerge groups pm.changeSet s.registrationResponses
          ({ s with
              registrationResponses := responses,
              draftRegistration := { s.draftRegistration with registrationResponses := responses } },
            true)
      | none => (s, false)
  | none => (s, false)

/-- Fire times of the autosave timers the code actually runs. The `onInput`
task (src/unnamed/part_003 lines 61-78) carries no concurrency modifier, so
under ember-concurrency's default policy every input event performs a fresh
independent task instance; each instance waits out the 500ms window and then
saves (assuming, as in the scenarios considered, that a current page manager
with groups is present throughout), and no instance is ever cancelled by a
later input. Inputs are given as a list of event times. -/
def onInputFireTimes (window : Nat) (inputTimes : List Nat) : List Nat :=
  inputTimes.map (fun t => t + window)

/-- Modelled from the spec: trailing-edge debounce (spec section 4.3). An
input arriving strictly before the pending timer fires cancels it and arms
a new timer one window later; a timer that fired at or before the next
input stays counted. Inputs are given in nondecreasing time order; the
second argument is the currently armed fire time. Returns the fire times of
the timers that actually elapse. -/
def debounceFireTimes (window : Nat) : List Nat → Option Nat → List Nat
  | [], none => []
  | [], some f => [f]
  | t :: ts, none => debounceFireTimes window ts (some (t + window))
  | t :: ts, some f =>
      if f ≤ t then f :: debounceFireTimes window ts (some (t + window))
      else debounceFireTimes window ts (some (t + window))

/-- An external save failure (the draft resource's `save()` rejecting). -/
inductive SaveError
  | err (msg : String)

/-- Outcome of the submit task, as observed by the caller: the task either
completes (success) or surfaces the save rejection. -/
inductive SubmitOutcome
  | submitted
  | failed (e : SaveError)

/-- The `submitDraftRegistration` task (src/unnamed/part_003 lines 80-82):
its whole body is `yield this.draftRegistration.save()`. The save outcome
comes from the external draft resource and is passed as a parameter; on
rejection the error propagates out of the task and no component state is
touched, on success the task completes. -/
def submitDraftRegistration (s : ManagerState) (saveResult : Except SaveError Unit) :
    ManagerState × SubmitOutcome :=
  match saveResult with
  | .ok _ => (s, .submitted)
  | .error e => (s, .failed e)

/-- Result of the `initializePageManagers` task (src/unnamed/part_003 lines
31-59): the properties it sets, plus the trace of `updateRoute`
invocations. -/
structure InitResult where
  lastPage : Nat
  registrationResponses : PageResponse
  pageManagers : List PageManager
  updateRouteCalls : List String

/-- The tail of the `initializePageManagers` task (src/unnamed/part_003
lines 39-58), after the awaited draft, schema and blocks have resolved.
`pages` is the output of `getPages(blocks)` and `mkPM` the `PageManager`
constructor; both live in packages/registration-schema, which is not among
the provided sources, so they are kept abstract (modelled from the spec:
partitioner output is a list of pages of SchemaBlockGroups, and a
PageManager is built from a page and the shared responses mapping). The
code sets `lastPage := pages.length`, builds one PageManager per page, and
`if (pageManagers.length) this.updateRoute(pageManagers[0].pageHeadingText)`. -/
def initializePageManagers
    (mkPM : List SchemaBlockGroup → PageResponse → PageManager)
    (pages : List (List SchemaBlockGroup))
    (draftResponses : PageResponse) : InitResult :=
  let pageManagers := pages.map (fun p => mkPM p draftResponses)
  { lastPage := pages.length
    registrationResponses := draftResponses
    pageManagers := pageManagers
    updateRouteCalls :=
      match pageManagers with
      | [] => []
      | pm :: _ => [pm.pageHeadingText] }

/-- The File model as consumed by the validator
(src/app/validators/validate-response-format.ts): after `reload()` has
settled, the validator reads `isError` (the reload rejected), `name`, and
`belongsTo('target').id()` (the id of the node the file belongs to). -/
structure FileModel where
  name : String
  isError : Bool
  targetId : String
  deriving DecidableEq, Repr

/-- The Node model as consumed by the validator: `id` and `isRoot` are read
directly (src/unnamed/part_001 declares the Node model).
`registeredDescendantIds` models the ids of the node's registered
descendants (reachable through the `registrations` / `children`
relationships of the Node model); the validator never reads it — it exists
so the spec's detachment criterion can be stated. -/
structure NodeModel where
  id : String
  isRoot : Bool
  registeredDescendantIds : List String
  deriving DecidableEq, Repr

/-- Modelled from the spec: the spec's detachment criterion — the file
still belongs to the node or to one of its registered descendants. Defined
from the spec's words for comparison with the code; the code's own check is
`file.belongsTo('target').id() !== node.id`. -/
def specBelongsToNodeOrRegisteredDescendant (n : NodeModel) (f : FileModel) : Bool :=
  f.targetId == n.id || n.registeredDescendantIds.contains f.targetId

/-- The classification loop of `validateFileList`
(src/app/validators/validate-response-format.ts lines 15-21): in file
order, a file with `isError` is pushed onto `deletedFiles`; otherwise, if
its target id differs from the node's id it is pushed onto
`detachedFiles`. Returns (detachedFiles, deletedFiles) as lists of file
names. -/
def classifyFiles (n : NodeModel) : List FileModel → List String × List String
  | [] => ([], [])
  | f :: fs =>
      let rest := classifyFiles n fs
      if f.isError then (rest.1, f.name :: rest.2)
      else if f.targetId ≠ n.id then (f.name :: rest.1, rest.2)
      else rest

/-- `node.isRoot ? 'project' : 'component'`
(src/app/validators/validate-response-format.ts line 22). -/
def projectOrComponent (n : NodeModel) : String :=
  if n.isRoot then "project" else "component"

/-- The detached-files message (validate-response-format.ts lines 25-28;
the backslash-newline in the template literal elides the line break). -/
def detachedMessage (n : NodeModel) (names : List String) : String :=
  "File(s) \"" ++ String.intercalate ", " names ++ "\" no longer belong to this "
    ++ projectOrComponent n ++ " or any of its registered components."

/-- The deleted-files message (validate-response-format.ts lines 30-34). -/
def deletedMessage (n : NodeModel) (names : List String) : String :=
  "File(s) \"" ++ String.intercalate ", " names
    ++ "\" were deleted from this " ++ projectOrComponent n ++ "."

/-- Result of the validator predicate: `true`, or a non-empty list of
error strings. -/
inductive ValidationOutcome
  | ok
  | errors (msgs : List String)
  deriving DecidableEq, Repr

/-- The predicate returned by `validateFileList(node?)` applied to a file
list (src/app/validators/validate-response-format.ts lines 7-39). The
optional node and the possibly-absent value follow the truthiness guard
`if (newValue && node)`. The second component counts the `file.reload()`
calls issued (`allSettled(newValue.map(file => file.reload()))` reloads
every file in the guarded branch, none otherwise). -/
def validateFileList (node : Option NodeModel) (newValue : Option (List FileModel)) :
    ValidationOutcome × Nat :=
  match newValue, node with
  | some files, some n =>
      let det := (classifyFiles n files).1
      let del := (classifyFiles n files).2
      let validationErrors :=
        (if det.isEmpty then [] else [detachedMessage n det])
          ++ (if del.isEmpty then [] else [deletedMessage n del])
      (if validationErrors.isEmpty then .ok else .errors validationErrors, files.length)
  | _, _ => (.ok, 0)

/-- A change-set with no staged values: every key reads as the empty
string. Used only to build concrete sample states. -/
def emptyChangeSet : String → RegValue := fun _ => ""

/-- A concrete sample page manager for closed instances of the theorems. -/
def pmA : PageManager :=
  { schemaBlockGroups := none
    changeSet := emptyChangeSet
    pageHeadingText := "First page"
    pageIsValid := true }

/-- A second concrete sample page manager. -/
def pmB : PageManager :=
  { schemaBlockGroups := none
    changeSet := emptyChangeSet
    pageHeadingText := "Second page"
    pageIsValid := false }

/-- A concrete sample page-param formatter (the real `getPageParam` is
external; the theorems hold for every formatter). -/
def sampleFmt : Int → String → String :=
  fun n s => toString n ++ "-" ++ s

/-- A concrete component state as it is before initialization completes:
both mappings empty, no page managers (src/unnamed/part_003 lines 94-96). -/
def initialStateSample : ManagerState :=
  { draftRegistration := { registrationResponses := [] }
    currentPage := 1
    lastPage := 0
    registrationResponses := []
    pageManagers := initialPageManagers }

/-- A schema-block group whose registrationResponseKey is "q1". -/
def groupQ1 : SchemaBlockGroup :=
  { inputType := none
    labelBlock := none
    inputBlock := none
    optionBlocks := none
    schemaBlockGroupKey := none
    registrationResponseKey := some "q1" }

/-- A change-set holding the staged value "hello" under key "q1". -/
def changeSetQ1 : String → RegValue :=
  fun k => if k = "q1" then "hello" else ""

/-- A page manager whose page has the single group `groupQ1` and whose
change-set stages "hello" for "q1". -/
def pmQ1 : PageManager :=
  { schemaBlockGroups := some [groupQ1]
    changeSet := changeSetQ1
    pageHeadingText := "Page 1"
    pageIsValid := true }

/-- A component state on page 1 of a one-page draft whose persisted
response for "q1" is "old". -/
def stateQ1 : ManagerState :=
  { draftRegistration := { registrationResponses := [("q1", "old")] }
    currentPage := 1
    lastPage := 1
    registrationResponses := [("q1", "old")]
    pageManagers := [pmQ1] }

/-- Sample node for the validator scenario: a root node (project) with no
registered descendants. -/
def scenarioNode : NodeModel :=
  { id := "n1", isRoot := true, registeredDescendantIds := [] }

/-- Scenario file A: belongs to the node, reload succeeded. -/
def fileA : FileModel := { name := "A", isError := false, targetId := "n1" }

/-- Scenario file B: belongs to a sibling node, reload succeeded. -/
def fileB : FileModel := { name := "B", isError := false, targetId := "sibling" }

/-- Scenario file C: reload errored. -/
def fileC : FileModel := { name := "C", isError := true, targetId := "n1" }

/-- A root node with one registered descendant "d1". -/
def nodeWithDescendant : NodeModel :=
  { id := "n1", isRoot := true, registeredDescendantIds := ["d1"] }

/-- A file whose target is the registered descendant "d1" and whose reload
succeeded. -/
def fileOnDescendant : FileModel :=
  { name := "F", isError := false, targetId := "d1" }

/-- The detached list computed by the classification loop is exactly the
names, in order, of the files whose reload succeeded and whose target id
differs from the node's id. -/
theorem classifyFiles_detached_eq (n : NodeModel) (fs : List FileModel) :
    (classifyFiles n fs).1 =
      (fs.filter (fun f => !f.isError && f.targetId != n.id)).map FileModel.name := by
  induction fs with
  | nil => rfl
  | cons f fs ih =>
    cases he : f.isError
    · by_cases ht : f.targetId = n.id
      · simp [classifyFiles, List.filter_cons, he, ht, ih]
      · simp [classifyFiles, List.filter_cons, he, ht, ih]
    · simp [classifyFiles, List.filter_cons, he, ih]

/-- The deleted list computed by the classification loop is exactly the
names, in order, of the files whose reload errored. -/
theorem classifyFiles_deleted_eq (n : NodeModel) (fs : List FileModel) :
    (classifyFiles n fs).2 =
      (fs.filter (fun f => f.isError)).map FileModel.name := by
  induction fs with
  | nil => rfl
  | cons f fs ih =>
    cases he : f.isError
    · by_cases ht : f.targetId = n.id
      · simp [classifyFiles, List.filter_cons, he, ht, ih]
      · simp [classifyFiles, List.filter_cons, he, ht, ih]
    · simp [classifyFiles, List.filter_cons, he, ih]

/-- The outcome of the validator in the guarded branch, as a single
if-expression over emptiness of the two classification lists. -/
theorem validateFileList_fst_eq (n : NodeModel) (fs : List FileModel) :
    (validateFileList (some n) (some fs)).1 =
      (if (classifyFiles n fs).1.isEmpty ∧ (classifyFiles n fs).2.isEmpty
       then ValidationOutcome.ok
       else ValidationOutcome.errors
         ((if (classifyFiles n fs).1.isEmpty then []
           else [detachedMessage n (classifyFiles n fs).1])
           ++ (if (classifyFiles n fs).2.isEmpty then []
               else [deletedMessage n (classifyFiles n fs).2]))) := by
  by_cases h1 : (classifyFiles n fs).1.isEmpty
    <;> by_cases h2 : (classifyFiles n fs).2.isEmpty
    <;> simp [validateFileList, h1, h2]

/-- The validator returns `true` exactly when every file reloaded without
error and has the node itself as its target. -/
theorem validateFileList_ok_iff (n : NodeModel) (fs : List FileModel) :
    ((validateFileList (some n) (some fs)).1 = ValidationOutcome.ok ↔
      ∀ f ∈ fs, f.isError = false ∧ f.targetId = n.id) := by
  rw [validateFileList_fst_eq]
  by_cases hc : (classifyFiles n fs).1.isEmpty ∧ (classifyFiles n fs).2.isEmpty
  · rw [if_pos hc]
    obtain ⟨h1, h2⟩ := hc
    rw [classifyFiles_detached_eq] at h1
    rw [classifyFiles_deleted_eq] at h2
    simp only [List.isEmpty_iff, List.map_eq_nil_iff, List.filter_eq_nil_iff] at h1 h2
    simp only [true_iff]
    intro f hf
    have hb2 := h2 f hf
    simp only [Bool.not_eq_true] at hb2
    have hb1 := h1 f hf
    simp only [hb2, Bool.not_false, Bool.true_and, bne_iff_ne, ne_eq, not_not] at hb1
    exact ⟨hb2, hb1⟩
  · rw [if_neg hc]
    constructor
    · intro h
      exact absurd h (by simp)
    · intro hall
      exfalso
      apply hc
      constructor
      · rw [classifyFiles_detached_eq]
        simp only [List.isEmpty_iff, List.map_eq_nil_iff, List.filter_eq_nil_iff]
        intro f hf
        simp [(hall f hf).1, (hall f hf).2]
      · rw [classifyFiles_deleted_eq]
        simp only [List.isEmpty_iff, List.map_eq_nil_iff, List.filter_eq_nil_iff]
        intro f hf
        simp [(hall f hf).1]

/-- C1: evaluating the autosave merge at a concrete failing input. The
current page has one SchemaBlockGroup with registrationResponseKey "q1" and
the change-set stages "hello" for "q1"; the persisted mapping started as
q1 ↦ "old". After the autosave fires, the entry under "q1" is UNCHANGED and
the staged value has instead been written under the literal key
"registrationResponseKey" (the object literal passed to Object.assign names
its property literally, not by computed key), and that wrong mapping is
what reaches the draft resource — refuting the claimed per-key merge. -/
theorem onInputFire_writes_literal_key :
    (onInputFire stateQ1).2 = true ∧
    (onInputFire stateQ1).1.registrationResponses =
      [("q1", "old"), ("registrationResponseKey", "hello")] ∧
    (onInputFire stateQ1).1.draftRegistration.registrationResponses =
      [("q1", "old"), ("registrationResponseKey", "hello")] ∧
    getKey (onInputFire stateQ1).1.registrationResponses "q1" = some "old" ∧
    getKey (onInputFire stateQ1).1.registrationResponses "registrationResponseKey" =
      some "hello" :=
  ⟨rfl, rfl, rfl, rfl, rfl⟩

/-- C2: the `onInput` task carries no concurrency modifier, so input events
at 0ms and 100ms — both inside the 500ms window — each run an uncancelled
instance and two saves occur (at 500 and 600), where the trailing-edge
debounce the spec (and the code's own comment) describe would coalesce them
into one; for inputs spaced beyond the window (0ms, 1000ms) both behaviours
agree on two saves. -/
theorem onInput_burst_not_coalesced :
    onInputFireTimes 500 [0, 100] = [500, 600] ∧
    (onInputFireTimes 500 [0, 100]).length = 2 ∧
    debounceFireTimes 500 [0, 100] none = [600] ∧
    (debounceFireTimes 500 [0, 100] none).length = 1 ∧
    onInputFireTimes 500 [0, 1000] = [500, 1500] ∧
    debounceFireTimes 500 [0, 1000] none = [500, 1500] := by
  refine ⟨rfl, rfl, by decide, by decide, rfl, by decide⟩

/-- C3 counterexample: a file whose reload succeeded and whose target is a
REGISTERED DESCENDANT of the node (so by the claim's criterion it still
belongs and must not be reported) is nevertheless reported detached by the
code, whose check is only `target.id !== node.id`. -/
theorem validateFileList_descendant_cex :
    specBelongsToNodeOrRegisteredDescendant nodeWithDescendant fileOnDescendant = true ∧
    fileOnDescendant.isError = false ∧
    (validateFileList (some nodeWithDescendant) (some [fileOnDescendant])).1 =
      ValidationOutcome.errors
        ["File(s) \"F\" no longer belong to this project or any of its registered components."] := by
  refine ⟨rfl, rfl, by decide⟩

/-- C3 (amended): the validator classifies a file as deleted iff its reload
errored, and as detached iff its reload succeeded and its target node is
not the given node ITSELF (files attached to registered descendants are
also reported detached); it returns true iff both categories are empty; and
on the scenario node with files A (belongs to the node), B (belongs to a
sibling) and C (reload error) it returns exactly one detached message
naming only B and one deleted message naming only C, after reloading all
three files. -/
theorem validateFileList_contract :
    (∀ (n : NodeModel) (fs : List FileModel),
      (classifyFiles n fs).2 = (fs.filter (fun f => f.isError)).map FileModel.name ∧
      (classifyFiles n fs).1 =
        (fs.filter (fun f => !f.isError && f.targetId != n.id)).map FileModel.name ∧
      ((validateFileList (some n) (some fs)).1 = ValidationOutcome.ok ↔
        ∀ f ∈ fs, f.isError = false ∧ f.targetId = n.id)) ∧
    (validateFileList (some scenarioNode) (some [fileA, fileB, fileC])).1 =
      ValidationOutcome.errors
        ["File(s) \"B\" no longer belong to this project or any of its registered components.",
         "File(s) \"C\" were deleted from this project."] ∧
    (validateFileList (some scenarioNode) (some [fileA, fileB, fileC])).2 = 3 := by
  refine ⟨fun n fs =>
    ⟨classifyFiles_deleted_eq n fs, classifyFiles_detached_eq n fs,
      validateFileList_ok_iff n fs⟩, by decide, rfl⟩

/-- C3 witness: the amended theorem applied at a concrete input — a single
file that belongs to the node and reloaded fine makes the validator return
true. -/
theorem validateFileList_contract_w :
    (validateFileList (some scenarioNode) (some [fileA])).1 = ValidationOutcome.ok :=
  (validateFileList_contract.1 scenarioNode [fileA]).2.2.mpr (by decide)

/-- C4: `currentPageManager` is undefined exactly when `currentPage` lies
outside [1, pageManagers.length]; inside that range it is the page manager
at index currentPage - 1. -/
theorem currentPageManager_range (pms : List PageManager) (cp : Int) :
    (currentPageManager pms cp = none ↔ (cp < 1 ∨ (pms.length : Int) < cp)) ∧
    (1 ≤ cp → cp ≤ (pms.length : Int) →
      currentPageManager pms cp = pms.get? (cp - 1).toNat) := by
  constructor
  · unfold currentPageManager jsIndex
    by_cases h : cp ≤ (pms.length : Int)
    · rw [if_pos h]
      by_cases h0 : (0 : Int) ≤ cp - 1
      · rw [if_pos h0, List.get?_eq_none]
        omega
      · rw [if_neg h0]
        have h1 : cp < 1 := by omega
        simp [h1]
    · rw [if_neg h]
      have h1 : (pms.length : Int) < cp := by omega
      simp [h1]
  · intro h1 h2
    unfold currentPageManager jsIndex
    rw [if_pos h2, if_pos (by omega : (0 : Int) ≤ cp - 1)]

/-- C4 witness: the in-range case of the theorem at a concrete one-page
state with currentPage = 1. -/
theorem currentPageManager_range_w :
    currentPageManager [pmA] 1 = [pmA].get? ((1 : Int) - 1).toNat :=
  (currentPageManager_range [pmA] 1).2 (by decide) (by decide)

/-- C5: on a well-formed state (lastPage equals the number of page managers
— the invariant initialization establishes — and currentPage within
[1, lastPage]): nextPageParam is the empty string exactly on the last page
and otherwise the formatter applied to page number currentPage + 1 and the
next page manager's heading text (that page manager exists); prevPageParam
is the empty string exactly on page 1 and otherwise the formatter applied
to page number currentPage - 1 and the previous page manager's heading
text (which also exists). -/
theorem pageParams_adjacent (fmt : Int → String → String) (pms : List PageManager)
    (lastPage cp : Int) (hl : lastPage = (pms.length : Int))
    (h1 : 1 ≤ cp) (h2 : cp ≤ lastPage) :
    (cp = lastPage → nextPageParam fmt pms lastPage cp = some "") ∧
    (cp ≠ lastPage → (jsIndex pms cp).isSome = true) ∧
    (cp ≠ lastPage → ∀ pm, jsIndex pms cp = some pm →
      nextPageParam fmt pms lastPage cp = some (fmt (cp + 1) pm.pageHeadingText)) ∧
    (cp ≤ 1 → prevPageParam fmt pms cp = some "") ∧
    (1 < cp → (jsIndex pms (cp - 2)).isSome = true) ∧
    (1 < cp → ∀ pm, jsIndex pms (cp - 2) = some pm →
      prevPageParam fmt pms cp = some (fmt (cp - 1) pm.pageHeadingText)) := by
  refine ⟨?_, ?_, ?_, ?_, ?_, ?_⟩
  · intro he
    unfold nextPageParam
    rw [if_neg]
    intro hcon
    exact hcon.2 he.symm
  · intro hne
    unfold jsIndex
    rw [if_pos (by omega : (0 : Int) ≤ cp)]
    rw [Option.isSome_iff_ne_none]
    intro hn
    rw [List.get?_eq_none] at hn
    omega
  · intro hne pm hpm
    unfold nextPageParam
    rw [if_pos ⟨by omega, fun hx => hne hx.symm⟩, hpm]
    rfl
  · intro hle
    unfold prevPageParam
    rw [if_neg]
    intro hcon
    omega
  · intro hgt
    unfold jsIndex
    rw [if_pos (by omega : (0 : Int) ≤ cp - 2)]
    rw [Option.isSome_iff_ne_none]
    intro hn
    rw [List.get?_eq_none] at hn
    omega
  · intro hgt pm hpm
    unfold prevPageParam
    rw [if_pos ⟨by omega, hgt⟩, hpm]
    rfl

/-- C5 witness: the theorem at a concrete two-page state on the last page:
nextPageParam is empty and prevPageParam is the formatted label of the
first page. -/
theorem pageParams_adjacent_w :
    nextPageParam sampleFmt [pmA, pmB] 2 2 = some "" ∧
    prevPageParam sampleFmt [pmA, pmB] 2 = some (sampleFmt 1 pmA.pageHeadingText) := by
  have h := pageParams_adjacent sampleFmt [pmA, pmB] 2 2 (by decide) (by decide) (by decide)
  exact ⟨h.1 rfl, h.2.2.2.2.2 (by decide) pmA rfl⟩

/-- C6: aggregate validity is the conjunction of every page manager's
pageIsValid; it is unchanged by moving to any other current page; and for a
page list split around any single page manager it is exactly that page's
validity conjoined with the validity of the others, so flipping one page's
validity flips the aggregate accordingly. -/
theorem isValid_every :
    (∀ s : ManagerState,
      (s.isValid = true ↔ ∀ pm ∈ s.pageManagers, pm.pageIsValid = true)) ∧
    (∀ (s : ManagerState) (cp : Int),
      ManagerState.isValid { s with currentPage := cp } = s.isValid) ∧
    (∀ (xs ys : List PageManager) (pm : PageManager),
      isValid (xs ++ pm :: ys) = (isValid xs && pm.pageIsValid && isValid ys)) := by
  refine ⟨fun s => ?_, fun s cp => rfl, fun xs ys pm => ?_⟩
  · simp [ManagerState.isValid, isValid, List.all_eq_true]
  · simp [isValid, List.all_append, List.all_cons, Bool.and_assoc]

/-- C6 witness: the decomposition applied at a concrete two-page list. -/
theorem isValid_every_w :
    isValid [pmA, pmB] = (isValid [pmA] && pmB.pageIsValid && isValid []) :=
  isValid_every.2.2 [pmA] [] pmB

/-- C7: when the draft's save() rejects during submit, the entire component
state — in particular currentPage and the aggregate isValid — is exactly
what it was before, and the rejection is surfaced to the caller as a
failure (the state is not Submitted, so the user may retry). -/
theorem submitDraftRegistration_error_keeps_state (s : ManagerState) (e : SaveError) :
    (submitDraftRegistration s (.error e)).1 = s ∧
    (submitDraftRegistration s (.error e)).1.currentPage = s.currentPage ∧
    ((submitDraftRegistration s (.error e)).1).isValid = s.isValid ∧
    (submitDraftRegistration s (.error e)).2 = .failed e :=
  ⟨rfl, rfl, rfl, rfl⟩

/-- C8: after initialization, the updateRoute trace is exactly one call
with the first page's heading text when the partition has at least one
page, and no call at all when it has none. -/
theorem initializePageManagers_route_calls
    (mkPM : List SchemaBlockGroup → PageResponse → PageManager)
    (pages : List (List SchemaBlockGroup)) (resp : PageResponse) :
    (initializePageManagers mkPM pages resp).updateRouteCalls =
      match pages with
      | [] => []
      | p :: _ => [(mkPM p resp).pageHeadingText] := by
  cases pages <;> rfl

/-- C9: when the owning node was omitted or the validated value is absent,
the predicate resolves to true and performs zero file reloads. -/
theorem validateFileList_absent (node : Option NodeModel) (v : Option (List FileModel))
    (h : node = none ∨ v = none) :
    validateFileList node v = (ValidationOutcome.ok, 0) := by
  rcases h with h | h
  · subst h; cases v <;> rfl
  · subst h; cases node <;> rfl

/-- C9 witness: node omitted, value present. -/
theorem validateFileList_absent_w :
    validateFileList none (some [fileA]) = (ValidationOutcome.ok, 0) :=
  validateFileList_absent none (some [fileA]) (Or.inl rfl)

/-- C10: whenever pageManagers holds its declared initial value, the empty
list — which it does until initialization completes — the aggregate isValid
is vacuously true. -/
theorem isValid_vacuous_empty (s : ManagerState)
    (h : s.pageManagers = initialPageManagers) : s.isValid = true := by
  simp [ManagerState.isValid, isValid, h, initialPageManagers]

/-- C10 witness: the concrete pre-initialization state reports valid. -/
theorem isValid_vacuous_empty_w : ManagerState.isValid initialStateSample = true :=
  isValid_vacuous_empty initialStateSample rfl

end OsfDraft
